import Mathlib

/-!
  Verification of the remote-config bootstrap core of the Cronosx402 frontend.

  The embedding follows the source files:
  - frontend/lib/globals.ts: the accessor functions over the Redux store
    (plain accessors, requiring accessors, requireConfig) and the
    configSlice (RuntimeConfig, ConfigState, loadConfig thunk, reducer).
  - the useCronosConfig hook: defaulted projection of the config state.
  - the providers file: ConfigGate and PrivyProviderWithConfig render logic.

  JavaScript truthiness on the optional fields is modelled explicitly:
  a string field is truthy iff present and nonempty, a numeric field is
  truthy iff present and nonzero.  Throwing functions return Except String.
-/

/-- Truthiness of an optional string field, as JavaScript evaluates
`config.field` in a boolean position: absent and the empty string are falsy. -/
def truthyStr : Option String → Bool
  | none => false
  | some s => !s.isEmpty

/-- Truthiness of an optional numeric field: absent and zero are falsy. -/
def truthyInt : Option Int → Bool
  | none => false
  | some n => n != 0

/-- JavaScript `x || d` for an optional string `x`: the stored string when
truthy, else the default. -/
def strOr (v : Option String) (d : String) : String :=
  match v with
  | none => d
  | some s => if s.isEmpty then d else s

/-- JavaScript `x || d` for an optional number `x`. -/
def intOr (v : Option Int) (d : Int) : Int :=
  match v with
  | none => d
  | some n => if n = 0 then d else n

/-- RuntimeConfig interface of configSlice: the nine declared fields. -/
structure RuntimeConfig where
  cronosApiBase : String
  cronosFullNode : String
  cronosRpc : String
  cronosChainId : Int
  cronosTestNetChainId : Int
  mosaicApiBaseUrl : String
  cronosLabsUrl : String
  cronosExplorerUrl : String
  cronosPositionBrokerUrl : String
deriving Repr, DecidableEq

/-- The JSON object actually delivered to the fulfilled reducer: the thunk
casts `res.json()` to RuntimeConfig without validation, so every field may
be absent. -/
structure ConfigPayload where
  cronosApiBase : Option String
  cronosFullNode : Option String
  cronosRpc : Option String
  cronosChainId : Option Int
  cronosTestNetChainId : Option Int
  mosaicApiBaseUrl : Option String
  cronosLabsUrl : Option String
  cronosExplorerUrl : Option String
  cronosPositionBrokerUrl : Option String
deriving Repr, DecidableEq

/-- A full RuntimeConfig viewed as a payload (every field present). -/
def RuntimeConfig.toPayload (c : RuntimeConfig) : ConfigPayload where
  cronosApiBase := some c.cronosApiBase
  cronosFullNode := some c.cronosFullNode
  cronosRpc := some c.cronosRpc
  cronosChainId := some c.cronosChainId
  cronosTestNetChainId := some c.cronosTestNetChainId
  mosaicApiBaseUrl := some c.mosaicApiBaseUrl
  cronosLabsUrl := some c.cronosLabsUrl
  cronosExplorerUrl := some c.cronosExplorerUrl
  cronosPositionBrokerUrl := some c.cronosPositionBrokerUrl

/-- ConfigState of configSlice: Partial RuntimeConfig plus loaded and error. -/
structure ConfigState where
  loaded : Bool
  error : Option String
  cronosApiBase : Option String
  cronosFullNode : Option String
  cronosRpc : Option String
  cronosChainId : Option Int
  cronosTestNetChainId : Option Int
  mosaicApiBaseUrl : Option String
  cronosLabsUrl : Option String
  cronosExplorerUrl : Option String
  cronosPositionBrokerUrl : Option String
deriving Repr, DecidableEq

/-- The initial state of configSlice: loaded false, no fields, no error. -/
def initialState : ConfigState where
  loaded := false
  error := none
  cronosApiBase := none
  cronosFullNode := none
  cronosRpc := none
  cronosChainId := none
  cronosTestNetChainId := none
  mosaicApiBaseUrl := none
  cronosLabsUrl := none
  cronosExplorerUrl := none
  cronosPositionBrokerUrl := none

/-- The two actions configSlice reacts to: loadConfig.fulfilled carries the
parsed (unvalidated) payload; loadConfig.rejected carries the serialized
error message, which may itself be absent. -/
inductive ConfigAction where
  | fulfilled (payload : ConfigPayload)
  | rejected (message : Option String)
deriving Repr, DecidableEq

/-- The extraReducers of configSlice.  The fulfilled case sets loaded and
copies every payload field as-is; it does not touch error.  The rejected
case sets loaded and stores `action.error.message || "Config load failed"`;
it does not touch the config fields. -/
def configReducer (s : ConfigState) : ConfigAction → ConfigState
  | ConfigAction.fulfilled p =>
    { s with
      loaded := true
      cronosApiBase := p.cronosApiBase
      cronosFullNode := p.cronosFullNode
      cronosRpc := p.cronosRpc
      cronosChainId := p.cronosChainId
      cronosTestNetChainId := p.cronosTestNetChainId
      mosaicApiBaseUrl := p.mosaicApiBaseUrl
      cronosLabsUrl := p.cronosLabsUrl
      cronosExplorerUrl := p.cronosExplorerUrl
      cronosPositionBrokerUrl := p.cronosPositionBrokerUrl }
  | ConfigAction.rejected m =>
    { s with
      loaded := true
      error := some (strOr m "Config load failed") }

/-- Fold a sequence of dispatched actions over a state. -/
def applyActions (s : ConfigState) (actions : List ConfigAction) : ConfigState :=
  actions.foldl configReducer s

/-- States the store can actually be in: the initial state and anything
produced from a reachable state by one reducer step. -/
inductive Reachable : ConfigState → Prop where
  | init : Reachable initialState
  | step {s : ConfigState} (a : ConfigAction) : Reachable s → Reachable (configReducer s a)

/-- Model of the HTTP response the loadConfig thunk inspects: the ok flag
and the JSON-parsed body. -/
structure HttpResponse where
  ok : Bool
  body : ConfigPayload
deriving Repr, DecidableEq

/-- The loadConfig thunk body: on non-ok status it throws
"Failed to load /config.json"; otherwise it returns the parsed body with
no field validation. -/
def loadConfig (res : HttpResponse) : Except String ConfigPayload :=
  if res.ok = false then
    Except.error "Failed to load /config.json"
  else
    Except.ok res.body

/-- Dispatching loadConfig against a response: a thrown error becomes a
rejected action carrying the error message, a returned payload becomes a
fulfilled action. -/
def dispatchLoad (s : ConfigState) (res : HttpResponse) : ConfigState :=
  match loadConfig res with
  | Except.ok p => configReducer s (ConfigAction.fulfilled p)
  | Except.error m => configReducer s (ConfigAction.rejected (some m))

/-- Plain accessor getCronosApiBase: never throws, undefined if not set. -/
def getCronosApiBase (s : ConfigState) : Option String := s.cronosApiBase

/-- Plain accessor getCronosRpc. -/
def getCronosRpc (s : ConfigState) : Option String := s.cronosRpc

/-- Plain accessor getCronosChainId. -/
def getCronosChainId (s : ConfigState) : Option Int := s.cronosChainId

/-- Plain accessor getMosaicApiBase (reads mosaicApiBaseUrl). -/
def getMosaicApiBase (s : ConfigState) : Option String := s.mosaicApiBaseUrl

/-- Plain accessor getCronosLabsUrl. -/
def getCronosLabsUrl (s : ConfigState) : Option String := s.cronosLabsUrl

/-- Plain accessor getCronosExplorerUrl. -/
def getCronosExplorerUrl (s : ConfigState) : Option String := s.cronosExplorerUrl

/-- Plain accessor getCronosPositionBrokerUrl. -/
def getCronosPositionBrokerUrl (s : ConfigState) : Option String := s.cronosPositionBrokerUrl

/-- Status check isConfigLoaded. -/
def isConfigLoaded (s : ConfigState) : Bool := s.loaded

/-- Requiring accessor requireCronosApiBase: throws when not loaded, throws
when the field is falsy, otherwise returns it. -/
def requireCronosApiBase (s : ConfigState) : Except String String :=
  if s.loaded = false then
    Except.error "Config not loaded yet. Ensure config is loaded before calling this function."
  else if truthyStr s.cronosApiBase = false then
    Except.error "cronosApiBase is not configured"
  else
    Except.ok (s.cronosApiBase.getD "")

/-- Requiring accessor requireCronosRpc. -/
def requireCronosRpc (s : ConfigState) : Except String String :=
  if s.loaded = false then
    Except.error "Config not loaded yet"
  else if truthyStr s.cronosRpc = false then
    Except.error "cronosRpc is not configured"
  else
    Except.ok (s.cronosRpc.getD "")

/-- Requiring accessor requireCronosChainId: the field test in the source is
`config.cronosChainId == null`, i.e. presence, not truthiness. -/
def requireCronosChainId (s : ConfigState) : Except String Int :=
  if s.loaded = false then
    Except.error "Config not loaded yet"
  else
    match s.cronosChainId with
    | none => Except.error "cronosChainId is not configured"
    | some v => Except.ok v

/-- Requiring accessor cronosTestNetChainId: tests
`config.cronosTestNetChainId == null` but its error message says
"cronosChainId is not configured", exactly as in the source. -/
def cronosTestNetChainId (s : ConfigState) : Except String Int :=
  if s.loaded = false then
    Except.error "Config not loaded yet"
  else
    match s.cronosTestNetChainId with
    | none => Except.error "cronosChainId is not configured"
    | some v => Except.ok v

/-- The partial record view of the state that requireConfig returns: the
`config as Required<RuntimeConfig>` cast has no runtime effect, so the
returned object carries exactly the stored optional fields. -/
def configView (s : ConfigState) : ConfigPayload where
  cronosApiBase := s.cronosApiBase
  cronosFullNode := s.cronosFullNode
  cronosRpc := s.cronosRpc
  cronosChainId := s.cronosChainId
  cronosTestNetChainId := s.cronosTestNetChainId
  mosaicApiBaseUrl := s.mosaicApiBaseUrl
  cronosLabsUrl := s.cronosLabsUrl
  cronosExplorerUrl := s.cronosExplorerUrl
  cronosPositionBrokerUrl := s.cronosPositionBrokerUrl

/-- requireConfig: throws when not loaded; throws "Config is incomplete"
when any of the seven tested fields is falsy (the source tests
cronosApiBase, cronosRpc, cronosChainId, cronosTestNetChainId,
mosaicApiBaseUrl, cronosLabsUrl, cronosExplorerUrl — it does not test
cronosFullNode or cronosPositionBrokerUrl); otherwise returns the state
cast to a full record. -/
def requireConfig (s : ConfigState) : Except String ConfigPayload :=
  if s.loaded = false then
    Except.error "Config not loaded yet"
  else if (!truthyStr s.cronosApiBase
      || !truthyStr s.cronosRpc
      || !truthyInt s.cronosChainId
      || !truthyInt s.cronosTestNetChainId
      || !truthyStr s.mosaicApiBaseUrl
      || !truthyStr s.cronosLabsUrl
      || !truthyStr s.cronosExplorerUrl) = true then
    Except.error "Config is incomplete"
  else
    Except.ok (configView s)

/-- The seven-field completeness test of requireConfig, as one Bool. -/
def requireConfigComplete (s : ConfigState) : Bool :=
  truthyStr s.cronosApiBase
    && truthyStr s.cronosRpc
    && truthyInt s.cronosChainId
    && truthyInt s.cronosTestNetChainId
    && truthyStr s.mosaicApiBaseUrl
    && truthyStr s.cronosLabsUrl
    && truthyStr s.cronosExplorerUrl

/-- The defaulted view returned by the useCronosConfig hook: every field is
always present in the result. -/
structure CronosConfigView where
  cronosApiBase : String
  cronosFullNode : String
  cronosRpc : String
  cronosChainId : Int
  cronosTestNetChainId : Int
  mosaicApiBaseUrl : String
  cronosLabsUrl : String
  cronosExplorerUrl : String
  cronosPositionBrokerUrl : String
  loaded : Bool
  error : Option String
deriving Repr, DecidableEq

/-- The useCronosConfig hook: each field is `stored || default`, with
default 25 for cronosChainId, 250 for cronosTestNetChainId and the empty
string for every URL field; loaded and error pass through. -/
def useCronosConfig (s : ConfigState) : CronosConfigView where
  cronosApiBase := strOr s.cronosApiBase ""
  cronosFullNode := strOr s.cronosFullNode ""
  cronosRpc := strOr s.cronosRpc ""
  cronosChainId := intOr s.cronosChainId 25
  cronosTestNetChainId := intOr s.cronosTestNetChainId 250
  mosaicApiBaseUrl := strOr s.mosaicApiBaseUrl ""
  cronosLabsUrl := strOr s.cronosLabsUrl ""
  cronosExplorerUrl := strOr s.cronosExplorerUrl ""
  cronosPositionBrokerUrl := strOr s.cronosPositionBrokerUrl ""
  loaded := s.loaded
  error := s.error

/-- The chain configuration PrivyProviderWithConfig builds for the
authentication provider: id from cronosChainId, rpc http url from
cronosLabsUrl (as in the source), explorer url from cronosExplorerUrl. -/
structure PrivyChainConfig where
  id : Int
  rpcUrl : String
  explorerUrl : String
deriving Repr, DecidableEq

/-- The rendered tree, abstracting the provider composition: the gate
renders nothing, an error box, or its children; the auth provider and the
chat runtime are nodes wrapping their child tree. -/
inductive RenderTree where
  | nothing : RenderTree
  | errorBox (message : String) : RenderTree
  | content : RenderTree
  | privyProvider (chain : PrivyChainConfig) (child : RenderTree) : RenderTree
  | copilotKit (child : RenderTree) : RenderTree
deriving Repr, DecidableEq

/-- ConfigGate: returns null while not loaded, an error div when error is
set, and its children otherwise. -/
def ConfigGate (s : ConfigState) : RenderTree :=
  if s.loaded = false then
    RenderTree.nothing
  else
    match s.error with
    | some e => RenderTree.errorBox ("Failed to load config: " ++ e)
    | none => RenderTree.content

/-- PrivyProviderWithConfig: reads useCronosConfig and mounts the auth
provider and the chat runtime unconditionally, with ConfigGate only as the
innermost child wrapping the page content. -/
def PrivyProviderWithConfig (s : ConfigState) : RenderTree :=
  let cfg := useCronosConfig s
  RenderTree.privyProvider
    { id := cfg.cronosChainId
      rpcUrl := cfg.cronosLabsUrl
      explorerUrl := cfg.cronosExplorerUrl }
    (RenderTree.copilotKit (ConfigGate s))

/-- Does a rendered tree contain an auth-provider node? -/
def containsPrivy : RenderTree → Bool
  | RenderTree.privyProvider _ _ => true
  | RenderTree.copilotKit c => containsPrivy c
  | _ => false

/-- Does a rendered tree contain a chat-runtime node? -/
def containsCopilot : RenderTree → Bool
  | RenderTree.copilotKit _ => true
  | RenderTree.privyProvider _ c => containsCopilot c
  | _ => false

/-- Are all nine fields of a payload present? -/
def payloadComplete (p : ConfigPayload) : Bool :=
  p.cronosApiBase.isSome
    && p.cronosFullNode.isSome
    && p.cronosRpc.isSome
    && p.cronosChainId.isSome
    && p.cronosTestNetChainId.isSome
    && p.mosaicApiBaseUrl.isSome
    && p.cronosLabsUrl.isSome
    && p.cronosExplorerUrl.isSome
    && p.cronosPositionBrokerUrl.isSome

/-- Are all nine RuntimeConfig fields of a state present? -/
def stateComplete (s : ConfigState) : Bool :=
  s.cronosApiBase.isSome
    && s.cronosFullNode.isSome
    && s.cronosRpc.isSome
    && s.cronosChainId.isSome
    && s.cronosTestNetChainId.isSome
    && s.mosaicApiBaseUrl.isSome
    && s.cronosLabsUrl.isSome
    && s.cronosExplorerUrl.isSome
    && s.cronosPositionBrokerUrl.isSome

/-- The observation invariant of the spec data-model section: either not
loaded with no error, or loaded with all fields present and no error, or
loaded with an error set. -/
def configInvariant (s : ConfigState) : Bool :=
  (!s.loaded && s.error.isNone)
    || (s.loaded && ((stateComplete s && s.error.isNone) || s.error.isSome))

/-- An action whose fulfilled payload, if any, is complete. -/
def completeAction : ConfigAction → Bool
  | ConfigAction.fulfilled p => payloadComplete p
  | ConfigAction.rejected _ => true

/-- Helper: both reducer cases set loaded to true. -/
lemma configReducer_loaded (s : ConfigState) (a : ConfigAction) :
    (configReducer s a).loaded = true := by
  cases a <;> rfl

/-- Helper: the only reachable state with loaded false is the initial one. -/
lemma reachable_not_loaded_eq_init {s : ConfigState}
    (hr : Reachable s) (hl : s.loaded = false) : s = initialState := by
  cases hr with
  | init => rfl
  | step a hr => simp [configReducer_loaded] at hl

/-- Helper: a nonempty string is truthy. -/
lemma isEmpty_false_of_ne {s : String} (h : s ≠ "") : s.isEmpty = false := by
  cases hs : s.isEmpty
  · rfl
  · exact absurd (String.isEmpty_iff s |>.mp hs) h

/-- Helper: the requireConfig incompleteness test is the negation of the
seven-field completeness conjunction. -/
lemma requireConfig_cond (s : ConfigState) :
    (!truthyStr s.cronosApiBase
      || !truthyStr s.cronosRpc
      || !truthyInt s.cronosChainId
      || !truthyInt s.cronosTestNetChainId
      || !truthyStr s.mosaicApiBaseUrl
      || !truthyStr s.cronosLabsUrl
      || !truthyStr s.cronosExplorerUrl) = !requireConfigComplete s := by
  simp [requireConfigComplete]

/-- A concrete full RuntimeConfig used in concrete runs and witnesses. -/
def sampleConfig : RuntimeConfig where
  cronosApiBase := "https://api.example"
  cronosFullNode := "https://fullnode.example"
  cronosRpc := "https://rpc.example"
  cronosChainId := 25
  cronosTestNetChainId := 338
  mosaicApiBaseUrl := "https://mosaic.example"
  cronosLabsUrl := "https://labs.example"
  cronosExplorerUrl := "https://explorer.example"
  cronosPositionBrokerUrl := "https://broker.example"

/-- The sample config as the payload a successful load delivers. -/
def samplePayload : ConfigPayload := sampleConfig.toPayload

/-- An entirely absent payload: the thunk performs no validation, so this is
a possible fulfilled payload. -/
def emptyPayload : ConfigPayload where
  cronosApiBase := none
  cronosFullNode := none
  cronosRpc := none
  cronosChainId := none
  cronosTestNetChainId := none
  mosaicApiBaseUrl := none
  cronosLabsUrl := none
  cronosExplorerUrl := none
  cronosPositionBrokerUrl := none

/-- A loaded state whose cronosFullNode is absent while the seven fields
requireConfig tests are all truthy. -/
def stateNoFullNode : ConfigState where
  loaded := true
  error := none
  cronosApiBase := some "https://api.example"
  cronosFullNode := none
  cronosRpc := some "https://rpc.example"
  cronosChainId := some 25
  cronosTestNetChainId := some 338
  mosaicApiBaseUrl := some "https://mosaic.example"
  cronosLabsUrl := some "https://labs.example"
  cronosExplorerUrl := some "https://explorer.example"
  cronosPositionBrokerUrl := some "https://broker.example"

/-- A loaded state with every config field absent. -/
def stateAllMissing : ConfigState where
  loaded := true
  error := none
  cronosApiBase := none
  cronosFullNode := none
  cronosRpc := none
  cronosChainId := none
  cronosTestNetChainId := none
  mosaicApiBaseUrl := none
  cronosLabsUrl := none
  cronosExplorerUrl := none
  cronosPositionBrokerUrl := none

/-- A loaded state missing only cronosTestNetChainId. -/
def stateNoTestnetId : ConfigState where
  loaded := true
  error := none
  cronosApiBase := some "https://api.example"
  cronosFullNode := some "https://fullnode.example"
  cronosRpc := some "https://rpc.example"
  cronosChainId := some 25
  cronosTestNetChainId := none
  mosaicApiBaseUrl := some "https://mosaic.example"
  cronosLabsUrl := some "https://labs.example"
  cronosExplorerUrl := some "https://explorer.example"
  cronosPositionBrokerUrl := some "https://broker.example"

/-- The state after one successful load of the sample payload. -/
def loadedState : ConfigState :=
  configReducer initialState (ConfigAction.fulfilled samplePayload)

/-- A concrete HTTP response with a non-success status. -/
def badResponse : HttpResponse where
  ok := false
  body := emptyPayload

/-- Claim C1 counterexample: at a loaded state whose cronosFullNode is
absent (falsy) but whose seven tested fields are truthy, requireConfig does
not throw "Config is incomplete" — it returns the record, because the
source never tests cronosFullNode (nor cronosPositionBrokerUrl). -/
theorem requireConfig_ignores_fullNode :
    stateNoFullNode.loaded = true
      ∧ truthyStr stateNoFullNode.cronosFullNode = false
      ∧ requireConfig stateNoFullNode = Except.ok (configView stateNoFullNode) :=
  ⟨rfl, rfl, rfl⟩

/-- Claim C1 amended: requireConfig throws "Config not loaded yet" when the
state is not loaded; when loaded it throws "Config is incomplete" exactly
when one of the SEVEN tested fields (cronosApiBase, cronosRpc,
cronosChainId, cronosTestNetChainId, mosaicApiBaseUrl, cronosLabsUrl,
cronosExplorerUrl — cronosFullNode and cronosPositionBrokerUrl are not
tested) is falsy, and otherwise returns the stored record. -/
theorem requireConfig_spec (s : ConfigState) :
    (s.loaded = false → requireConfig s = Except.error "Config not loaded yet")
      ∧ (s.loaded = true → requireConfigComplete s = false →
          requireConfig s = Except.error "Config is incomplete")
      ∧ (s.loaded = true → requireConfigComplete s = true →
          requireConfig s = Except.ok (configView s)) := by
  refine ⟨?_, ?_, ?_⟩
  · intro h
    simp [requireConfig, h]
  · intro h hc
    rw [requireConfig, requireConfig_cond]
    simp [h, hc]
  · intro h hc
    rw [requireConfig, requireConfig_cond]
    simp [h, hc]

/-- Claim C1 witness: the three branches of requireConfig_spec at concrete
states. -/
theorem requireConfig_spec_witness :
    requireConfig initialState = Except.error "Config not loaded yet"
      ∧ requireConfig stateAllMissing = Except.error "Config is incomplete"
      ∧ requireConfig stateNoFullNode = Except.ok (configView stateNoFullNode) :=
  ⟨(requireConfig_spec initialState).1 rfl,
   (requireConfig_spec stateAllMissing).2.1 rfl rfl,
   (requireConfig_spec stateNoFullNode).2.2 rfl (by decide)⟩

/-- Claim C2 counterexample: at the initial state (loaded false) the
rendered provider tree already contains the auth-provider node, configured
from the default config view (chain id 25, empty rpc and explorer urls),
and the chat-runtime node — so config-dependent initialization of the
collaborators happens before the store's terminal transition, even though
the gate itself renders nothing. -/
theorem collaborators_mounted_before_load :
    initialState.loaded = false
      ∧ containsPrivy (PrivyProviderWithConfig initialState) = true
      ∧ containsCopilot (PrivyProviderWithConfig initialState) = true
      ∧ PrivyProviderWithConfig initialState
          = RenderTree.privyProvider
              { id := 25, rpcUrl := "", explorerUrl := "" }
              (RenderTree.copilotKit RenderTree.nothing)
      ∧ ConfigGate initialState = RenderTree.nothing :=
  ⟨rfl, rfl, rfl, rfl, rfl⟩

/-- Claim C2 amended: while the store is unloaded the gate renders nothing
(no children, no error), but the authentication provider and the chat
runtime are mounted outside the gate, before the terminal transition,
initialized with the defaulted config view. -/
theorem gate_renders_nothing_unloaded {s : ConfigState}
    (hr : Reachable s) (hl : s.loaded = false) :
    ConfigGate s = RenderTree.nothing
      ∧ PrivyProviderWithConfig s
        = RenderTree.privyProvider
            { id := 25, rpcUrl := "", explorerUrl := "" }
            (RenderTree.copilotKit RenderTree.nothing) := by
  have h := reachable_not_loaded_eq_init hr hl
  subst h
  exact ⟨rfl, rfl⟩

/-- Claim C2 witness: the amended statement at the initial state. -/
theorem gate_renders_nothing_unloaded_witness :
    ConfigGate initialState = RenderTree.nothing
      ∧ PrivyProviderWithConfig initialState
        = RenderTree.privyProvider
            { id := 25, rpcUrl := "", explorerUrl := "" }
            (RenderTree.copilotKit RenderTree.nothing) :=
  gate_renders_nothing_unloaded Reachable.init rfl

/-- Claim C3 counterexample: one fulfilled step with an entirely absent
payload reaches a state with loaded true, error absent and every field
missing — the invariant fails. -/
theorem invariant_broken_by_partial_payload :
    (configReducer initialState (ConfigAction.fulfilled emptyPayload)).loaded = true
      ∧ (configReducer initialState (ConfigAction.fulfilled emptyPayload)).error = none
      ∧ (configReducer initialState (ConfigAction.fulfilled emptyPayload)).cronosApiBase = none
      ∧ configInvariant (configReducer initialState (ConfigAction.fulfilled emptyPayload)) = false :=
  ⟨rfl, rfl, rfl, rfl⟩

/-- Helper: a step with a complete fulfilled payload (or any rejected step)
always lands in a state satisfying the invariant. -/
lemma configInvariant_step (s : ConfigState) (a : ConfigAction)
    (ha : completeAction a = true) :
    configInvariant (configReducer s a) = true := by
  cases a with
  | fulfilled p =>
    have hsc : stateComplete (configReducer s (ConfigAction.fulfilled p)) = true := ha
    have herr : (configReducer s (ConfigAction.fulfilled p)).error = s.error := rfl
    simp only [configInvariant, configReducer_loaded, hsc, herr, Bool.not_true,
      Bool.false_and, Bool.true_and, Bool.false_or]
    cases s.error <;> rfl
  | rejected m =>
    simp [configInvariant, configReducer]

/-- Helper: the invariant is preserved along any fold of complete actions. -/
lemma configInvariant_foldl (actions : List ConfigAction) (s : ConfigState)
    (hs : configInvariant s = true)
    (hc : ∀ a ∈ actions, completeAction a = true) :
    configInvariant (applyActions s actions) = true := by
  induction actions generalizing s with
  | nil => exact hs
  | cons a rest ih =>
    exact ih (configReducer s a)
      (configInvariant_step s a (hc a (List.mem_cons_self a rest)))
      (fun b hb => hc b (List.mem_cons_of_mem a hb))

/-- Claim C3 amended: under sequences in which every fulfilled payload is
complete (all nine fields present), every reachable state satisfies the
observation invariant; with an incomplete fulfilled payload the invariant
fails (see the counterexample). -/
theorem invariant_reachable_complete (actions : List ConfigAction)
    (hc : ∀ a ∈ actions, completeAction a = true) :
    configInvariant (applyActions initialState actions) = true :=
  configInvariant_foldl actions initialState rfl hc

/-- Claim C3 witness: a concrete success-then-failure run of complete
actions keeps the invariant. -/
theorem invariant_reachable_complete_witness :
    configInvariant (applyActions initialState
      [ConfigAction.fulfilled samplePayload,
       ConfigAction.rejected (some "network down")]) = true :=
  invariant_reachable_complete
    [ConfigAction.fulfilled samplePayload,
     ConfigAction.rejected (some "network down")]
    (by decide)

/-- Claim C4 counterexample: dispatching the load against a non-ok response
stores the message "Failed to load /config.json" — not the spec's
"Failed to load configuration". -/
theorem load_failure_message_counterexample :
    badResponse.ok = false
      ∧ (dispatchLoad initialState badResponse).error = some "Failed to load /config.json"
      ∧ (dispatchLoad initialState badResponse).error ≠ some "Failed to load configuration" := by
  refine ⟨rfl, rfl, ?_⟩
  decide

/-- Claim C4 amended: a non-ok HTTP response always takes the failure path,
and the message stored in the store is "Failed to load /config.json". -/
theorem load_failure_path (s : ConfigState) (res : HttpResponse) (h : res.ok = false) :
    (dispatchLoad s res).loaded = true
      ∧ (dispatchLoad s res).error = some "Failed to load /config.json" := by
  obtain ⟨ok, body⟩ := res
  cases ok with
  | false => exact ⟨rfl, rfl⟩
  | true => simp at h

/-- Claim C4 witness: the amended statement at a concrete non-ok response. -/
theorem load_failure_path_witness :
    (dispatchLoad initialState badResponse).loaded = true
      ∧ (dispatchLoad initialState badResponse).error = some "Failed to load /config.json" :=
  load_failure_path initialState badResponse rfl

/-- Claim C5: at a loaded state whose cronosTestNetChainId is absent, the
testnet requiring accessor throws "cronosChainId is not configured" — the
message names the wrong field (cronosChainId instead of
cronosTestNetChainId), a copy-paste slip in the source contradicting the
naming rule the spec states. -/
theorem testnet_accessor_wrong_field_name :
    stateNoTestnetId.loaded = true
      ∧ stateNoTestnetId.cronosTestNetChainId = none
      ∧ cronosTestNetChainId stateNoTestnetId = Except.error "cronosChainId is not configured" :=
  ⟨rfl, rfl, rfl⟩

/-- Claim C6 counterexample: after a successful load of the sample payload
the gate shows the content; dispatching a contradictory rejected completion
sets error to "network down" and the gate thereafter shows the error box,
not the successfully loaded view. -/
theorem rejected_after_fulfilled_sets_error :
    loadedState.error = none
      ∧ ConfigGate loadedState = RenderTree.content
      ∧ (configReducer loadedState (ConfigAction.rejected (some "network down"))).error
          = some "network down"
      ∧ ConfigGate (configReducer loadedState (ConfigAction.rejected (some "network down")))
          = RenderTree.errorBox "Failed to load config: network down" :=
  ⟨rfl, rfl, rfl, rfl⟩

/-- Claim C6 amended: a rejected completion dispatched after the store is
loaded keeps loaded true and preserves every stored config field, but it
does overwrite error with its message, so the state the gate observes
becomes the error view. -/
theorem rejected_after_load_overwrites_error (s : ConfigState) (m : String)
    (_hl : s.loaded = true) (hm : m ≠ "") :
    (configReducer s (ConfigAction.rejected (some m))).loaded = true
      ∧ (configReducer s (ConfigAction.rejected (some m))).cronosApiBase = s.cronosApiBase
      ∧ (configReducer s (ConfigAction.rejected (some m))).cronosFullNode = s.cronosFullNode
      ∧ (configReducer s (ConfigAction.rejected (some m))).cronosRpc = s.cronosRpc
      ∧ (configReducer s (ConfigAction.rejected (some m))).cronosChainId = s.cronosChainId
      ∧ (configReducer s (ConfigAction.rejected (some m))).cronosTestNetChainId
          = s.cronosTestNetChainId
      ∧ (configReducer s (ConfigAction.rejected (some m))).mosaicApiBaseUrl
          = s.mosaicApiBaseUrl
      ∧ (configReducer s (ConfigAction.rejected (some m))).cronosLabsUrl = s.cronosLabsUrl
      ∧ (configReducer s (ConfigAction.rejected (some m))).cronosExplorerUrl
          = s.cronosExplorerUrl
      ∧ (configReducer s (ConfigAction.rejected (some m))).cronosPositionBrokerUrl
          = s.cronosPositionBrokerUrl
      ∧ (configReducer s (ConfigAction.rejected (some m))).error = some m
      ∧ ConfigGate (configReducer s (ConfigAction.rejected (some m)))
          = RenderTree.errorBox ("Failed to load config: " ++ m) := by
  have hme : m.isEmpty = false := isEmpty_false_of_ne hm
  refine ⟨rfl, rfl, rfl, rfl, rfl, rfl, rfl, rfl, rfl, rfl, ?_, ?_⟩
  · simp [configReducer, strOr, hme]
  · simp [ConfigGate, configReducer, strOr, hme]

/-- Claim C6 witness: the amended statement after the concrete
success-then-failure run. -/
theorem rejected_after_load_overwrites_error_witness :
    (configReducer loadedState (ConfigAction.rejected (some "network down"))).loaded = true
      ∧ (configReducer loadedState (ConfigAction.rejected (some "network down"))).cronosApiBase
          = loadedState.cronosApiBase
      ∧ (configReducer loadedState (ConfigAction.rejected (some "network down"))).cronosFullNode
          = loadedState.cronosFullNode
      ∧ (configReducer loadedState (ConfigAction.rejected (some "network down"))).cronosRpc
          = loadedState.cronosRpc
      ∧ (configReducer loadedState (ConfigAction.rejected (some "network down"))).cronosChainId
          = loadedState.cronosChainId
      ∧ (configReducer loadedState
          (ConfigAction.rejected (some "network down"))).cronosTestNetChainId
          = loadedState.cronosTestNetChainId
      ∧ (configReducer loadedState
          (ConfigAction.rejected (some "network down"))).mosaicApiBaseUrl
          = loadedState.mosaicApiBaseUrl
      ∧ (configReducer loadedState (ConfigAction.rejected (some "network down"))).cronosLabsUrl
          = loadedState.cronosLabsUrl
      ∧ (configReducer loadedState
          (ConfigAction.rejected (some "network down"))).cronosExplorerUrl
          = loadedState.cronosExplorerUrl
      ∧ (configReducer loadedState
          (ConfigAction.rejected (some "network down"))).cronosPositionBrokerUrl
          = loadedState.cronosPositionBrokerUrl
      ∧ (configReducer loadedState (ConfigAction.rejected (some "network down"))).error
          = some "network down"
      ∧ ConfigGate (configReducer loadedState (ConfigAction.rejected (some "network down")))
          = RenderTree.errorBox ("Failed to load config: " ++ "network down") :=
  rejected_after_load_overwrites_error loadedState "network down" rfl (by decide)

/-- Helper: a nonempty optional string is truthy. -/
lemma truthyStr_some_of_ne {x : String} (h : x ≠ "") : truthyStr (some x) = true := by
  simp [truthyStr, isEmpty_false_of_ne h]

/-- Helper: a nonzero optional number is truthy. -/
lemma truthyInt_some_of_ne {n : Int} (h : n ≠ 0) : truthyInt (some n) = true := by
  simp [truthyInt, bne_iff_ne, h]

/-- Claim C7: after one fulfilled step from the initial state with a full,
truthy RuntimeConfig payload, isConfigLoaded is true, error is absent, and
every requiring accessor returns the corresponding payload field unchanged
(round-trip identity through the store). -/
theorem fulfilled_roundTrip (c : RuntimeConfig)
    (hab : c.cronosApiBase ≠ "") (_hfn : c.cronosFullNode ≠ "")
    (hrp : c.cronosRpc ≠ "") (hci : c.cronosChainId ≠ 0)
    (hti : c.cronosTestNetChainId ≠ 0) (hmo : c.mosaicApiBaseUrl ≠ "")
    (hla : c.cronosLabsUrl ≠ "") (hex : c.cronosExplorerUrl ≠ "")
    (_hbr : c.cronosPositionBrokerUrl ≠ "") :
    isConfigLoaded (configReducer initialState (ConfigAction.fulfilled c.toPayload)) = true
      ∧ (configReducer initialState (ConfigAction.fulfilled c.toPayload)).error = none
      ∧ requireCronosApiBase (configReducer initialState (ConfigAction.fulfilled c.toPayload))
          = Except.ok c.cronosApiBase
      ∧ requireCronosRpc (configReducer initialState (ConfigAction.fulfilled c.toPayload))
          = Except.ok c.cronosRpc
      ∧ requireCronosChainId (configReducer initialState (ConfigAction.fulfilled c.toPayload))
          = Except.ok c.cronosChainId
      ∧ cronosTestNetChainId (configReducer initialState (ConfigAction.fulfilled c.toPayload))
          = Except.ok c.cronosTestNetChainId
      ∧ requireConfig (configReducer initialState (ConfigAction.fulfilled c.toPayload))
          = Except.ok c.toPayload := by
  refine ⟨rfl, rfl, ?_, ?_, ?_, ?_, ?_⟩
  · simp [requireCronosApiBase, configReducer, RuntimeConfig.toPayload,
      truthyStr_some_of_ne hab]
  · simp [requireCronosRpc, configReducer, RuntimeConfig.toPayload,
      truthyStr_some_of_ne hrp]
  · simp [requireCronosChainId, configReducer, RuntimeConfig.toPayload]
  · simp [cronosTestNetChainId, configReducer, RuntimeConfig.toPayload]
  · simp [requireConfig, configView, configReducer, RuntimeConfig.toPayload,
      truthyStr_some_of_ne hab, truthyStr_some_of_ne hrp,
      truthyInt_some_of_ne hci, truthyInt_some_of_ne hti,
      truthyStr_some_of_ne hmo, truthyStr_some_of_ne hla,
      truthyStr_some_of_ne hex]

/-- Claim C7 witness: the round-trip at the concrete sample config. -/
theorem fulfilled_roundTrip_witness :
    requireConfig (configReducer initialState (ConfigAction.fulfilled sampleConfig.toPayload))
      = Except.ok sampleConfig.toPayload :=
  (fulfilled_roundTrip sampleConfig (by decide) (by decide) (by decide) (by decide)
    (by decide) (by decide) (by decide) (by decide) (by decide)).2.2.2.2.2.2

/-- Claim C8: in every reachable state with loaded false, every plain
accessor returns none (being a total function, it cannot throw), and every
requiring accessor fails with its config-not-loaded error. -/
theorem unloaded_accessors {s : ConfigState} (hr : Reachable s) (hl : s.loaded = false) :
    getCronosApiBase s = none
      ∧ getCronosRpc s = none
      ∧ getCronosChainId s = none
      ∧ getMosaicApiBase s = none
      ∧ getCronosLabsUrl s = none
      ∧ getCronosExplorerUrl s = none
      ∧ getCronosPositionBrokerUrl s = none
      ∧ requireCronosApiBase s
          = Except.error "Config not loaded yet. Ensure config is loaded before calling this function."
      ∧ requireCronosRpc s = Except.error "Config not loaded yet"
      ∧ requireCronosChainId s = Except.error "Config not loaded yet"
      ∧ cronosTestNetChainId s = Except.error "Config not loaded yet"
      ∧ requireConfig s = Except.error "Config not loaded yet" := by
  have h := reachable_not_loaded_eq_init hr hl
  subst h
  exact ⟨rfl, rfl, rfl, rfl, rfl, rfl, rfl, rfl, rfl, rfl, rfl, rfl⟩

/-- Claim C8 witness: the statement at the initial state. -/
theorem unloaded_accessors_witness :
    getCronosApiBase initialState = none
      ∧ getCronosRpc initialState = none
      ∧ getCronosChainId initialState = none
      ∧ getMosaicApiBase initialState = none
      ∧ getCronosLabsUrl initialState = none
      ∧ getCronosExplorerUrl initialState = none
      ∧ getCronosPositionBrokerUrl initialState = none
      ∧ requireCronosApiBase initialState
          = Except.error "Config not loaded yet. Ensure config is loaded before calling this function."
      ∧ requireCronosRpc initialState = Except.error "Config not loaded yet"
      ∧ requireCronosChainId initialState = Except.error "Config not loaded yet"
      ∧ cronosTestNetChainId initialState = Except.error "Config not loaded yet"
      ∧ requireConfig initialState = Except.error "Config not loaded yet" :=
  unloaded_accessors Reachable.init rfl

/-- Claim C9: the loaded flag is monotone: it starts false, and every
reducer step — fulfilled or rejected — leaves the state with loaded true,
so no step ever sets it back to false. -/
theorem loaded_monotone :
    initialState.loaded = false
      ∧ ∀ (s : ConfigState) (a : ConfigAction), (configReducer s a).loaded = true :=
  ⟨rfl, configReducer_loaded⟩

/-- Claim C10: useCronosConfig substitutes a default for every absent field
(the empty string for each URL field, 25 for cronosChainId, 250 for
cronosTestNetChainId), so its result never has an absent field; in every
reachable state with loaded false it reports exactly those defaults with
loaded false and no error. -/
theorem useCronosConfig_defaults (s : ConfigState) :
    (s.cronosApiBase = none → (useCronosConfig s).cronosApiBase = "")
      ∧ (s.cronosFullNode = none → (useCronosConfig s).cronosFullNode = "")
      ∧ (s.cronosRpc = none → (useCronosConfig s).cronosRpc = "")
      ∧ (s.cronosChainId = none → (useCronosConfig s).cronosChainId = 25)
      ∧ (s.cronosTestNetChainId = none → (useCronosConfig s).cronosTestNetChainId = 250)
      ∧ (s.mosaicApiBaseUrl = none → (useCronosConfig s).mosaicApiBaseUrl = "")
      ∧ (s.cronosLabsUrl = none → (useCronosConfig s).cronosLabsUrl = "")
      ∧ (s.cronosExplorerUrl = none → (useCronosConfig s).cronosExplorerUrl = "")
      ∧ (s.cronosPositionBrokerUrl = none → (useCronosConfig s).cronosPositionBrokerUrl = "")
      ∧ (Reachable s → s.loaded = false →
          useCronosConfig s =
            { cronosApiBase := "", cronosFullNode := "", cronosRpc := "",
              cronosChainId := 25, cronosTestNetChainId := 250,
              mosaicApiBaseUrl := "", cronosLabsUrl := "", cronosExplorerUrl := "",
              cronosPositionBrokerUrl := "", loaded := false, error := none }) := by
  refine ⟨?_, ?_, ?_, ?_, ?_, ?_, ?_, ?_, ?_, ?_⟩
  · intro h; simp [useCronosConfig, strOr, h]
  · intro h; simp [useCronosConfig, strOr, h]
  · intro h; simp [useCronosConfig, strOr, h]
  · intro h; simp [useCronosConfig, intOr, h]
  · intro h; simp [useCronosConfig, intOr, h]
  · intro h; simp [useCronosConfig, strOr, h]
  · intro h; simp [useCronosConfig, strOr, h]
  · intro h; simp [useCronosConfig, strOr, h]
  · intro h; simp [useCronosConfig, strOr, h]
  · intro hr hl
    have h := reachable_not_loaded_eq_init hr hl
    subst h
    rfl

/-- Claim C10 witness: the defaulted view at the initial state. -/
theorem useCronosConfig_defaults_witness :
    useCronosConfig initialState =
      { cronosApiBase := "", cronosFullNode := "", cronosRpc := "",
        cronosChainId := 25, cronosTestNetChainId := 250,
        mosaicApiBaseUrl := "", cronosLabsUrl := "", cronosExplorerUrl := "",
        cronosPositionBrokerUrl := "", loaded := false, error := none } :=
  (useCronosConfig_defaults initialState).2.2.2.2.2.2.2.2.2 Reachable.init rfl
